import Mathlib

/-!
Verification of the TKGI application-tracker aggregation core.

The definitions below are a shallow embedding of the aggregation scripts
(`aggregate-data.py` and `aggregate-cross-foundation.py`):

* Python dicts keyed by strings are modelled as association lists
  `List (String × α)` with first-occurrence lookup and in-place update
  (`updateMap`), mirroring `defaultdict` access-then-mutate.
* Python `set` objects of strings are modelled as duplicate-free lists in
  first-insertion order (`insertSet`); `list(s)` is then the identity.
* Absent JSON fields are `Option`; `dict.get(k, d)` is `Option.getD`.
* Python integers are `Int` (JSON numbers may be negative, unbounded).
* The wall clock enters only through `days_since_activity`; the aggregator is
  parameterised by an oracle `daysSince : String → Option Int` standing for
  `(datetime.now() - fromisoformat ts).days`, `none` on parse failure.
-/

/-- A raw namespace inventory record (input schema of the aggregator). -/
structure NamespaceRecord where
  nsName : String
  cluster : Option String := none
  cluster_full : Option String := none
  foundation : Option String := none
  environment : Option String := none
  app_id : Option String := none
  is_system : Bool := false
  pod_count : Int := 0
  running_pods : Int := 0
  deployment_count : Int := 0
  service_count : Int := 0
  labels : Option (List (String × String)) := none
  last_activity : Option String := none
deriving DecidableEq, Repr

/-- Python truthiness of `ns_data.get('labels')`: absent or the empty mapping
is falsy. -/
def labelsFalsy (r : NamespaceRecord) : Bool :=
  match r.labels with
  | none => true
  | some l => l.isEmpty

/-- Model of the first regex, `^([a-zA-Z]+)-(\d{4,6})`, applied with
`re.match` (anchored at the start only).  The alpha run and the digit run are
forced to be maximal because backtracking into them cannot produce the
required separator; the digit group greedily takes at most six digits and the
match succeeds whenever at least four follow the hyphen.  The returned string
is `'-'.join(match.groups()[:2])`. -/
def matchPatOne (s : List Char) : Option String :=
  let p := s.takeWhile Char.isAlpha
  let r := s.dropWhile Char.isAlpha
  if p.isEmpty then none else
  match r with
  | '-' :: r2 =>
      let ds := r2.takeWhile Char.isDigit
      if ds.length ≥ 4 then
        some (String.mk p ++ "-" ++ String.mk (ds.take 6))
      else none
  | _ => none

/-- Model of the second regex, `^([a-zA-Z]+)-([a-zA-Z]+)-(\d{4,6})`; the
result keeps only the first two groups. -/
def matchPatTwo (s : List Char) : Option String :=
  let p1 := s.takeWhile Char.isAlpha
  let r1 := s.dropWhile Char.isAlpha
  if p1.isEmpty then none else
  match r1 with
  | '-' :: r2 =>
      let p2 := r2.takeWhile Char.isAlpha
      let r3 := r2.dropWhile Char.isAlpha
      if p2.isEmpty then none else
      match r3 with
      | '-' :: r4 =>
          let ds := r4.takeWhile Char.isDigit
          if ds.length ≥ 4 then some (String.mk p1 ++ "-" ++ String.mk p2)
          else none
      | _ => none
  | _ => none

/-- Model of Python `str.split('-')`: always returns at least one piece. -/
def splitHyphen : List Char → List (List Char)
  | [] => [[]]
  | c :: rest =>
      if c = '-' then [] :: splitHyphen rest
      else
        match splitHyphen rest with
        | h :: t => (c :: h) :: t
        | [] => [[c]]

/-- `DataAggregator._extract_app_id_from_name`: try the two namespace-name
patterns in order, then fall back to the prefix before the first hyphen, then
to the `"unknown"` sentinel. -/
def extract_app_id_from_name (nsName : String) : String :=
  match matchPatOne nsName.data with
  | some r => r
  | none =>
    match matchPatTwo nsName.data with
    | some r => r
    | none =>
      let parts := splitHyphen nsName.data
      if parts.length > 1 then String.mk (parts.headD []) else "unknown"

/-- Identity resolution as performed inside `aggregate_by_application`
(lines 72–75): an explicit identifier other than the `"unknown"` sentinel is
returned verbatim, otherwise the identifier is derived from the name. -/
def resolveAppId (r : NamespaceRecord) : String :=
  let app_id := r.app_id.getD "unknown"
  if app_id = "unknown" then extract_app_id_from_name r.nsName else app_id

/-- `ns_data.get('cluster_full', ns_data.get('cluster', 'unknown'))`. -/
def clusterKey (r : NamespaceRecord) : String :=
  r.cluster_full.getD (r.cluster.getD "unknown")

/-- The per-application accumulator (`apps[app_id]` defaultdict value),
including the fields written during finalization. -/
structure App where
  app_id : Option String := none
  namespaces : List String := []
  foundations : List String := []
  environments : List String := []
  total_pods : Int := 0
  running_pods : Int := 0
  total_deployments : Int := 0
  total_services : Int := 0
  clusters : List String := []
  last_activity : Option String := none
  is_active : Bool := false
  data_quality : String := "good"
  days_since_activity : Option Int := none
  migration_readiness : Int := 0
deriving DecidableEq, Repr

/-- The fresh accumulator produced by the `defaultdict` factory. -/
def initApp : App := {}

/-- Python `set.add` on the insertion-order list model of a set. -/
def insertSet (l : List String) (x : String) : List String :=
  if x ∈ l then l else l ++ [x]

/-- The `last_activity` update: ignore falsy or `"unknown"` timestamps, keep
the lexically larger one otherwise (`not app['last_activity']` is true for
both `None` and the empty string). -/
def updateLastActivity (cur : Option String) (la : Option String) : Option String :=
  match la with
  | none => cur
  | some s =>
      if s = "" ∨ s = "unknown" then cur
      else
        match cur with
        | none => some s
        | some c => if c = "" ∨ c < s then some s else some c

/-- One iteration of the `aggregate_by_application` loop body for a
non-system record (the system-namespace `continue` lives in the driver). -/
def foldRecord (app : App) (r : NamespaceRecord) : App :=
  let app_id := resolveAppId r
  { app with
    app_id := some app_id
    namespaces := app.namespaces ++ [r.nsName]
    foundations := insertSet app.foundations (r.foundation.getD "unknown")
    environments := insertSet app.environments (r.environment.getD "unknown")
    clusters := insertSet app.clusters (clusterKey r)
    total_pods := app.total_pods + r.pod_count
    running_pods := app.running_pods + r.running_pods
    total_deployments := app.total_deployments + r.deployment_count
    total_services := app.total_services + r.service_count
    last_activity := updateLastActivity app.last_activity r.last_activity
    data_quality :=
      if app_id = "unknown" ∨ labelsFalsy r then "incomplete" else app.data_quality }

/-- Whether a record degrades its application's `data_quality`
(line 97: `if app_id == 'unknown' or not ns_data.get('labels')`). -/
def degradesQuality (r : NamespaceRecord) : Bool :=
  decide (resolveAppId r = "unknown") || labelsFalsy r

/-- `defaultdict` access-then-mutate on an association list: the first entry
with the key is rewritten in place; a missing key is appended with the
factory default run through the mutation. -/
def updateMap {α : Type} (m : List (String × α)) (k : String) (d : α) (f : α → α) :
    List (String × α) :=
  match m with
  | [] => [(k, f d)]
  | (k', v) :: rest => if k' = k then (k, f v) :: rest else (k', v) :: updateMap rest k d f

/-- First-occurrence lookup in an association list (dict access). -/
def lookupKey {α : Type} (k : String) : List (String × α) → Option α
  | [] => none
  | (k', v) :: rest => if k' = k then some v else lookupKey k rest

/-- The generic grouping fold shared by both aggregation loops: skip the
records `skip` selects, group the rest by `key`, and fold each group with
`step` starting from the factory default `d`. -/
def processFold {R α : Type} (key : R → String) (skip : R → Bool) (d : α)
    (step : α → R → α) (m : List (String × α)) : List R → List (String × α)
  | [] => m
  | r :: rest =>
      if skip r then processFold key skip d step m rest
      else processFold key skip d step (updateMap m (key r) d (fun a => step a r)) rest

/-- `DataAggregator._calculate_migration_readiness`, transcribed statement by
statement.  `days_inactive and days_inactive > 60` uses Python truthiness, so
a stored value of `0` behaves like an absent one. -/
def calculate_migration_readiness (app : App) : Int :=
  let score : Int := 100
  let score := if app.is_active then score - 30 else score
  let score :=
    if app.running_pods > 10 then score - 20
    else if app.running_pods > 5 then score - 10
    else score
  let score := if "production" ∈ app.environments then score - 20 else score
  let score := if app.total_services > 5 then score - 10 else score
  let score := if app.data_quality = "incomplete" then score - 15 else score
  let score :=
    match app.days_since_activity with
    | some d => if d ≠ 0 ∧ d > 60 then score + 20
                else if d ≠ 0 ∧ d > 30 then score + 10
                else score
    | none => score
  max 0 (min 100 score)

/-- The pre-clamp sum of the scorer's base, deductions and bonus, written as
one additive expression. -/
def rawReadiness (app : App) : Int :=
  100
  - (if app.is_active then 30 else 0)
  - (if app.running_pods > 10 then 20 else if app.running_pods > 5 then 10 else 0)
  - (if "production" ∈ app.environments then 20 else 0)
  - (if app.total_services > 5 then 10 else 0)
  - (if app.data_quality = "incomplete" then 15 else 0)
  + (match app.days_since_activity with
     | some d => if d ≠ 0 ∧ d > 60 then 20 else if d ≠ 0 ∧ d > 30 then 10 else 0
     | none => 0)

/-- The reference scoring formula exactly as the specification words it
(base 100; −30 active; −20 if pods > 10 else −10 if pods > 5; −20 production;
−10 if services > 5; −15 incomplete; +20 if days > 60 else +10 if days > 30,
nothing when unknown or ≤ 30). -/
def readinessRef (app : App) : Int :=
  100
  - (if app.is_active then 30 else 0)
  - (if app.running_pods > 10 then 20 else if app.running_pods > 5 then 10 else 0)
  - (if "production" ∈ app.environments then 20 else 0)
  - (if app.total_services > 5 then 10 else 0)
  - (if app.data_quality = "incomplete" then 15 else 0)
  + (match app.days_since_activity with
     | some d => if d > 60 then 20 else if d > 30 then 10 else 0
     | none => 0)

/-- A guarded in-place deduction is a deduction of a guarded amount. -/
lemma ite_sub_amount {A : Prop} [Decidable A] (x c : Int) :
    (if A then x - c else x) = x - (if A then c else 0) := by
  split_ifs <;> ring

/-- A two-band guarded deduction is a deduction of a banded amount (stated on
the shape left over once the inner band has been rewritten). -/
lemma ite_band_sub {A B : Prop} [Decidable A] [Decidable B] (x c₁ c₂ : Int) :
    (if A then x - c₁ else x - (if B then c₂ else 0)) =
      x - (if A then c₁ else if B then c₂ else 0) := by
  split_ifs <;> ring

/-- A two-band guarded bonus is an addition of a banded amount. -/
lemma ite_band_add {A B : Prop} [Decidable A] [Decidable B] (x c₁ c₂ : Int) :
    (if A then x + c₁ else if B then x + c₂ else x) =
      x + (if A then c₁ else if B then c₂ else 0) := by
  split_ifs <;> ring

/-- The sequential scorer equals the clamp of the one-expression sum. -/
lemma calc_readiness_eq_clamp (app : App) :
    calculate_migration_readiness app = max 0 (min 100 (rawReadiness app)) := by
  cases h : app.days_since_activity <;>
    simp only [calculate_migration_readiness, rawReadiness, h,
      ite_sub_amount, ite_band_sub, ite_band_add, add_zero]

/-- C1: for every application record the migration-readiness score lies in
`[0, 100]`, and it equals the single clamp `max 0 (min 100 ·)` applied to the
pre-clamp sum of all deductions and bonuses. -/
theorem C1_readiness_clamped (app : App) :
    0 ≤ calculate_migration_readiness app ∧
    calculate_migration_readiness app ≤ 100 ∧
    calculate_migration_readiness app = max 0 (min 100 (rawReadiness app)) := by
  have hEq := calc_readiness_eq_clamp app
  refine ⟨?_, ?_, hEq⟩
  · rw [hEq]; exact le_max_left 0 _
  · rw [hEq]
    have : min 100 (rawReadiness app) ≤ 100 := min_le_left _ _
    omega

/-- C2: the scorer agrees with the specification's reference formula (clamped
once at the end) on every application, and on the concrete application with
`is_active`, 12 running pods, a production environment, 6 services and
complete data quality it returns exactly 20. -/
theorem C2_reference_formula :
    (∀ app : App, calculate_migration_readiness app = max 0 (min 100 (readinessRef app))) ∧
    calculate_migration_readiness
      { initApp with
        is_active := true
        running_pods := 12
        environments := ["production"]
        total_services := 6
        data_quality := "good"
        days_since_activity := some 5 } = 20 := by
  constructor
  · intro app
    rw [calc_readiness_eq_clamp app]
    have : rawReadiness app = readinessRef app := by
      cases h : app.days_since_activity
      · simp only [rawReadiness, readinessRef, h]
      · simp only [rawReadiness, readinessRef, h]
        split_ifs <;> omega
    rw [this]
  · decide

/-- The finalization pass of `aggregate_by_application` for one accumulator
(the set→list conversions are identities in the list model of sets):
derive `is_active`/`days_since_activity` from the stored timestamp via the
clock-and-parse oracle `daysSince`, then compute the readiness score.  A
falsy stored timestamp is skipped; a parse failure marks the application
inactive with unknown days. -/
def finalizeApp (daysSince : String → Option Int) (a : App) : App :=
  let a :=
    match a.last_activity with
    | none => a
    | some la =>
        if la = "" then a
        else
          match daysSince la with
          | some d => { a with is_active := decide (d ≤ 30), days_since_activity := some d }
          | none => { a with is_active := false, days_since_activity := none }
  { a with migration_readiness := calculate_migration_readiness a }

/-- `DataAggregator.aggregate_by_application`: group the non-system records
by resolved identifier, fold each group, then finalize every accumulator. -/
def aggregate_by_application (daysSince : String → Option Int)
    (data : List NamespaceRecord) : List (String × App) :=
  (processFold resolveAppId (fun r => r.is_system) initApp foldRecord [] data).map
    (fun p => (p.1, finalizeApp daysSince p.2))

/-- The per-cluster accumulator, including the finalization field. -/
structure Cluster where
  cluster : Option String := none
  foundation : Option String := none
  environment : Option String := none
  total_namespaces : Int := 0
  app_namespaces : Int := 0
  system_namespaces : Int := 0
  total_pods : Int := 0
  running_pods : Int := 0
  applications : List String := []
  application_count : Int := 0
deriving DecidableEq, Repr

/-- The fresh cluster accumulator of the `defaultdict` factory. -/
def initCluster : Cluster := {}

/-- One iteration of the `aggregate_by_cluster` loop body.  Note that the
applications set receives the record's raw `app_id` field (defaulted to
`"unknown"`), with no derivation from the namespace name. -/
def foldCluster (c : Cluster) (r : NamespaceRecord) : Cluster :=
  let cluster_name := clusterKey r
  let c := { c with
    cluster := some cluster_name
    foundation := some (r.foundation.getD "unknown")
    environment := some (r.environment.getD "unknown")
    total_namespaces := c.total_namespaces + 1 }
  let c :=
    if r.is_system then { c with system_namespaces := c.system_namespaces + 1 }
    else
      let app_id := r.app_id.getD "unknown"
      let c := { c with app_namespaces := c.app_namespaces + 1 }
      if app_id ≠ "unknown" then { c with applications := insertSet c.applications app_id }
      else c
  { c with
    total_pods := c.total_pods + r.pod_count
    running_pods := c.running_pods + r.running_pods }

/-- Cluster finalization: the application set becomes its count. -/
def finalizeCluster (c : Cluster) : Cluster :=
  { c with application_count := (c.applications.length : Int) }

/-- `DataAggregator.aggregate_by_cluster`: every record contributes to the
cluster keyed by `cluster_full`/`cluster`/`"unknown"`. -/
def aggregate_by_cluster (data : List NamespaceRecord) : List (String × Cluster) :=
  (processFold clusterKey (fun _ => false) initCluster foldCluster [] data).map
    (fun p => (p.1, finalizeCluster p.2))

/-- The sub-stream of records that contribute to the group of key `k`. -/
def groupOf {R : Type} (key : R → String) (skip : R → Bool) (data : List R) (k : String) :
    List R :=
  data.filter (fun r => !skip r && decide (key r = k))

lemma lookupKey_updateMap_self {α : Type} (m : List (String × α)) (k : String) (d : α)
    (f : α → α) : lookupKey k (updateMap m k d f) = some (f ((lookupKey k m).getD d)) := by
  induction m with
  | nil => simp [lookupKey, updateMap]
  | cons p rest ih =>
      obtain ⟨k', v⟩ := p
      by_cases h : k' = k
      · subst h
        simp [lookupKey, updateMap]
      · simp [lookupKey, updateMap, h, ih]

lemma lookupKey_updateMap_ne {α : Type} (m : List (String × α)) {k k' : String} (d : α)
    (f : α → α) (h : k' ≠ k) : lookupKey k (updateMap m k' d f) = lookupKey k m := by
  induction m with
  | nil => simp [lookupKey, updateMap, h]
  | cons p rest ih =>
      obtain ⟨k'', v⟩ := p
      by_cases h2 : k'' = k'
      · subst h2
        simp [lookupKey, updateMap, h]
      · by_cases h3 : k'' = k <;> simp [lookupKey, updateMap, h2, h3, ih, Ne.symm h]

/-- Master grouping lemma: looking a key up in the grouping fold's output
yields the fold of that key's contributing sub-stream, started from the value
already in the accumulator map (or the factory default when absent). -/
lemma lookupKey_processFold {R α : Type} (key : R → String) (skip : R → Bool) (d : α)
    (step : α → R → α) (data : List R) (m : List (String × α)) (k : String) :
    lookupKey k (processFold key skip d step m data) =
      match lookupKey k m with
      | some v => some ((groupOf key skip data k).foldl step v)
      | none =>
          if (groupOf key skip data k).isEmpty then none
          else some ((groupOf key skip data k).foldl step d) := by
  induction data generalizing m with
  | nil =>
      cases h : lookupKey k m <;> simp [processFold, groupOf, h]
  | cons r rest ih =>
      by_cases hs : skip r
      · have hgrp : groupOf key skip (r :: rest) k = groupOf key skip rest k := by
          simp [groupOf, List.filter, hs]
        rw [show processFold key skip d step m (r :: rest)
              = processFold key skip d step m rest by simp [processFold, hs]]
        rw [ih m, hgrp]
      · by_cases hk : key r = k
        · have hgrp : groupOf key skip (r :: rest) k = r :: groupOf key skip rest k := by
            simp [groupOf, List.filter, hs, hk]
          rw [show processFold key skip d step m (r :: rest)
                = processFold key skip d step (updateMap m (key r) d (fun a => step a r)) rest by
              simp [processFold, hs]]
          rw [ih, hgrp, hk, lookupKey_updateMap_self]
          cases h : lookupKey k m <;> simp [h]
        · have hgrp : groupOf key skip (r :: rest) k = groupOf key skip rest k := by
            simp [groupOf, List.filter, hs, hk]
          rw [show processFold key skip d step m (r :: rest)
                = processFold key skip d step (updateMap m (key r) d (fun a => step a r)) rest by
              simp [processFold, hs]]
          rw [ih, hgrp, lookupKey_updateMap_ne _ _ _ hk]

/-- Sum of a numeric projection over all values of an accumulator map. -/
def mapSum {α : Type} (g : α → Int) (m : List (String × α)) : Int :=
  (m.map (fun p => g p.2)).sum

lemma mapSum_updateMap {α : Type} (g : α → Int) (m : List (String × α)) (k : String)
    (d : α) (f : α → α) (c : Int) (hf : ∀ v, g (f v) = g v + c) (hd : g d = 0) :
    mapSum g (updateMap m k d f) = mapSum g m + c := by
  induction m with
  | nil => simp [mapSum, updateMap, hf, hd]
  | cons p rest ih =>
      obtain ⟨k', v⟩ := p
      by_cases h : k' = k
      · simp [mapSum, updateMap, h, hf]
        ring
      · simp only [mapSum, updateMap, h, if_false, List.map_cons, List.sum_cons]
        have := ih
        simp only [mapSum] at this
        rw [this]
        ring

/-- The grouping fold adds, over all groups together, exactly the weights of
the records it does not skip. -/
lemma mapSum_processFold {R α : Type} (key : R → String) (skip : R → Bool) (d : α)
    (step : α → R → α) (g : α → Int) (w : R → Int)
    (hstep : ∀ v r, g (step v r) = g v + w r) (hd : g d = 0)
    (data : List R) (m : List (String × α)) :
    mapSum g (processFold key skip d step m data) =
      mapSum g m + ((data.filter (fun r => !skip r)).map w).sum := by
  induction data generalizing m with
  | nil => simp [processFold]
  | cons r rest ih =>
      by_cases hs : skip r
      · rw [show processFold key skip d step m (r :: rest)
              = processFold key skip d step m rest by simp [processFold, hs]]
        rw [ih m]
        simp [List.filter, hs]
      · rw [show processFold key skip d step m (r :: rest)
              = processFold key skip d step (updateMap m (key r) d (fun a => step a r)) rest by
            simp [processFold, hs]]
        rw [ih, mapSum_updateMap g m (key r) d _ (w r) (fun v => hstep v r) hd]
        simp [List.filter, hs]
        ring

lemma finalizeApp_total_pods (ds : String → Option Int) (a : App) :
    (finalizeApp ds a).total_pods = a.total_pods := by
  unfold finalizeApp
  cases h : a.last_activity with
  | none => rfl
  | some la =>
      by_cases h2 : la = ""
      · simp [h2]
      · cases h3 : ds la <;> simp [h2, h3]

lemma mapSum_map_snd {α β : Type} (g : β → Int) (g' : α → Int) (h : α → β)
    (m : List (String × α)) (hgh : ∀ a, g (h a) = g' a) :
    mapSum g (m.map (fun p => (p.1, h p.2))) = mapSum g' m := by
  induction m with
  | nil => rfl
  | cons p rest ih => simp [mapSum, hgh] at ih ⊢; rw [ih]

lemma sum_filter_split (data : List NamespaceRecord) (w : NamespaceRecord → Int) :
    ((data.filter (fun r => !r.is_system)).map w).sum
      + ((data.filter (fun r => r.is_system)).map w).sum = (data.map w).sum := by
  induction data with
  | nil => simp
  | cons r rest ih =>
      cases hr : r.is_system <;> simp [List.filter, hr] <;> omega

/-- C5: pod conservation — summing `total_pods` over all aggregated
application records and adding the pod counts of the (skipped) system
namespaces yields the sum of `total_pods` over all aggregated cluster
records. -/
theorem C5_pod_conservation (daysSince : String → Option Int) (data : List NamespaceRecord) :
    mapSum (fun a => a.total_pods) (aggregate_by_application daysSince data)
      + ((data.filter (fun r => r.is_system)).map (fun r => r.pod_count)).sum
      = mapSum (fun c => c.total_pods) (aggregate_by_cluster data) := by
  have happ : mapSum (fun a => a.total_pods) (aggregate_by_application daysSince data)
      = ((data.filter (fun r => !r.is_system)).map (fun r => r.pod_count)).sum := by
    unfold aggregate_by_application
    rw [mapSum_map_snd (fun a => a.total_pods) (fun a => a.total_pods) (finalizeApp daysSince)
      _ (fun a => finalizeApp_total_pods daysSince a)]
    rw [mapSum_processFold resolveAppId (fun r => r.is_system) initApp foldRecord
      (fun a => a.total_pods) (fun r => r.pod_count)
      (fun v r => by simp [foldRecord]) rfl]
    simp [mapSum]
  have hclu : mapSum (fun c => c.total_pods) (aggregate_by_cluster data)
      = (data.map (fun r => r.pod_count)).sum := by
    unfold aggregate_by_cluster
    rw [mapSum_map_snd (fun c => c.total_pods) (fun c => c.total_pods) finalizeCluster
      _ (fun c => rfl)]
    rw [mapSum_processFold clusterKey (fun _ => false) initCluster foldCluster
      (fun c => c.total_pods) (fun r => r.pod_count)
      (fun v r => by unfold foldCluster; split_ifs <;> simp [apply_ite Cluster.total_pods]) rfl]
    simp [mapSum]
  rw [happ, hclu, sum_filter_split]

lemma finalizeApp_data_quality (ds : String → Option Int) (a : App) :
    (finalizeApp ds a).data_quality = a.data_quality := by
  unfold finalizeApp
  cases h : a.last_activity with
  | none => rfl
  | some la =>
      by_cases h2 : la = ""
      · simp [h2]
      · cases h3 : ds la <;> simp [h2, h3]

lemma lookupKey_map_snd {α β : Type} (k : String) (h : α → β) (m : List (String × α)) :
    lookupKey k (m.map (fun p => (p.1, h p.2))) = (lookupKey k m).map h := by
  induction m with
  | nil => rfl
  | cons p rest ih =>
      obtain ⟨k', v⟩ := p
      by_cases hk : k' = k <;> simp [lookupKey, hk, ih]

/-- One fold step touches `data_quality` exactly through `degradesQuality`. -/
lemma foldRecord_data_quality (a : App) (r : NamespaceRecord) :
    (foldRecord a r).data_quality =
      if degradesQuality r then "incomplete" else a.data_quality := by
  unfold foldRecord degradesQuality
  by_cases h : resolveAppId r = "unknown" ∨ labelsFalsy r = true
  · rcases h with h | h <;> simp [h]
  · push_neg at h
    simp [h.1, h.2]

/-- The quality of a folded group is `"incomplete"` exactly when some
contributing record degrades it. -/
lemma foldl_quality (l : List NamespaceRecord) (a : App) :
    (l.foldl foldRecord a).data_quality =
      if l.any degradesQuality then "incomplete" else a.data_quality := by
  induction l generalizing a with
  | nil => simp
  | cons r t ih =>
      rw [List.foldl_cons, ih, foldRecord_data_quality]
      cases hd : degradesQuality r <;> cases ht : t.any degradesQuality <;>
        simp [List.any_cons, hd, ht]

/-- The contributing sub-stream of an application identifier. -/
def appGroup (data : List NamespaceRecord) (k : String) : List NamespaceRecord :=
  groupOf resolveAppId (fun r => r.is_system) data k

/-- The finalized `data_quality` emitted for identifier `k`. -/
def appQuality (ds : String → Option Int) (data : List NamespaceRecord) (k : String) :
    Option String :=
  (lookupKey k (aggregate_by_application ds data)).map (fun a => a.data_quality)

/-- Characterization: the emitted quality is `"incomplete"` iff some
contributing record degrades it, `"good"` otherwise, absent iff nothing
contributed. -/
lemma appQuality_char (ds : String → Option Int) (data : List NamespaceRecord) (k : String) :
    appQuality ds data k =
      if (appGroup data k).isEmpty then none
      else some (if (appGroup data k).any degradesQuality then "incomplete" else "good") := by
  unfold appQuality aggregate_by_application appGroup
  rw [lookupKey_map_snd, lookupKey_processFold]
  by_cases hg : (groupOf resolveAppId (fun r => r.is_system) data k).isEmpty
  · rw [show lookupKey k ([] : List (String × App)) = none from rfl, hg]
    rfl
  · rw [show lookupKey k ([] : List (String × App)) = none from rfl,
      Bool.not_eq_true] at *
    rw [hg]
    show some ((finalizeApp ds _).data_quality) = _
    rw [finalizeApp_data_quality, foldl_quality]
    rfl

lemma perm_any_eq {α : Type} {l₁ l₂ : List α} (h : l₁.Perm l₂) (p : α → Bool) :
    l₁.any p = l₂.any p := by
  cases h1 : l₁.any p <;> cases h2 : l₂.any p
  · rfl
  · obtain ⟨x, hx, hpx⟩ := List.any_eq_true.mp h2
    have hcontra : l₁.any p = true := List.any_eq_true.mpr ⟨x, h.mem_iff.mpr hx, hpx⟩
    rw [h1] at hcontra
    exact hcontra
  · obtain ⟨x, hx, hpx⟩ := List.any_eq_true.mp h1
    have hcontra : l₂.any p = true := List.any_eq_true.mpr ⟨x, h.mem_iff.mp hx, hpx⟩
    rw [h2] at hcontra
    exact hcontra.symm
  · rfl

/-- C3: the aggregated `data_quality` is monotonically downgraded — once the
records seen so far make it `"incomplete"`, appending any further records
leaves it `"incomplete"` — and folding any permutation of the same records
yields the same final `data_quality`. -/
theorem C3_quality_monotone_and_order_free (ds : String → Option Int)
    (data extra data' : List NamespaceRecord) (k : String) :
    (appQuality ds data k = some "incomplete" →
        appQuality ds (data ++ extra) k = some "incomplete") ∧
    (data.Perm data' → appQuality ds data k = appQuality ds data' k) := by
  constructor
  · intro h
    rw [appQuality_char] at h ⊢
    by_cases hg : (appGroup data k).isEmpty
    · simp [hg] at h
    · simp only [hg, Bool.false_eq_true, if_false, Option.some_inj] at h
      have hany : (appGroup data k).any degradesQuality = true := by
        by_cases hb : (appGroup data k).any degradesQuality
        · exact hb
        · simp only [hb, Bool.false_eq_true, if_false] at h
          exact absurd h (by decide)
      have hsplit : appGroup (data ++ extra) k = appGroup data k ++ appGroup extra k := by
        simp [appGroup, groupOf, List.filter_append]
      have hne : appGroup data k ≠ [] := by
        simpa [List.isEmpty_eq_true] using hg
      rw [hsplit]
      have hgE : ((appGroup data k ++ appGroup extra k).isEmpty) = false := by
        simp [List.isEmpty_eq_true]
        intro hcontra
        exact absurd hcontra hne
      simp [hgE, List.any_append, hany]
  · intro hp
    rw [appQuality_char, appQuality_char]
    have hgp : (appGroup data k).Perm (appGroup data' k) := hp.filter _
    have hany := perm_any_eq hgp degradesQuality
    by_cases hg : (appGroup data k).isEmpty
    · have hnil : appGroup data k = [] := by simpa [List.isEmpty_eq_true] using hg
      have hnil' : appGroup data' k = [] := by
        rw [hnil] at hgp
        exact hgp.symm.eq_nil
      simp [hnil, hnil']
    · have hnil : appGroup data k ≠ [] := by simpa [List.isEmpty_eq_true] using hg
      have hnil' : appGroup data' k ≠ [] := by
        intro hcontra
        rw [hcontra] at hgp
        exact hnil hgp.eq_nil
      have h1 : (appGroup data k).isEmpty = false := by simp [List.isEmpty_eq_true, hnil]
      have h2 : (appGroup data' k).isEmpty = false := by simp [List.isEmpty_eq_true, hnil']
      simp [h1, h2, hany]

/-- A record that degrades quality (its labels mapping is absent). -/
def recC3bad : NamespaceRecord :=
  { nsName := "team-app-ns1", app_id := some "team-app", labels := none }

/-- A clean record for the same application (non-empty labels). -/
def recC3clean : NamespaceRecord :=
  { nsName := "team-app-ns2", app_id := some "team-app",
    labels := some [("team", "payments")] }

theorem C3_quality_monotone_and_order_free_witness :
    appQuality (fun _ => none) [recC3bad] "team-app" = some "incomplete" ∧
    appQuality (fun _ => none) ([recC3bad] ++ [recC3clean]) "team-app" = some "incomplete" ∧
    appQuality (fun _ => none) [recC3bad, recC3clean] "team-app"
      = appQuality (fun _ => none) [recC3clean, recC3bad] "team-app" :=
  ⟨by decide,
   (C3_quality_monotone_and_order_free (fun _ => none) [recC3bad] [recC3clean]
      [recC3bad] "team-app").1 (by decide),
   (C3_quality_monotone_and_order_free (fun _ => none) [recC3bad, recC3clean] []
      [recC3clean, recC3bad] "team-app").2 (List.Perm.swap recC3clean recC3bad [])⟩

lemma foldCluster_foundation (c : Cluster) (r : NamespaceRecord) :
    (foldCluster c r).foundation = some (r.foundation.getD "unknown") := by
  simp only [foldCluster]
  split_ifs <;> rfl

lemma foldCluster_environment (c : Cluster) (r : NamespaceRecord) :
    (foldCluster c r).environment = some (r.environment.getD "unknown") := by
  simp only [foldCluster]
  split_ifs <;> rfl

lemma foldl_cluster_foundation (l : List NamespaceRecord) (c : Cluster) :
    (l.foldl foldCluster c).foundation =
      match l.getLast? with
      | some r => some (r.foundation.getD "unknown")
      | none => c.foundation := by
  induction l generalizing c with
  | nil => rfl
  | cons r t ih =>
      cases t with
      | nil => simp [foldCluster_foundation]
      | cons r' t' =>
          rw [List.foldl_cons, ih, List.getLast?_cons_cons]
          cases hgl : (r' :: t').getLast? with
          | none => exact absurd (List.getLast?_eq_none_iff.mp hgl) (by simp)
          | some rr => rfl

lemma foldl_cluster_environment (l : List NamespaceRecord) (c : Cluster) :
    (l.foldl foldCluster c).environment =
      match l.getLast? with
      | some r => some (r.environment.getD "unknown")
      | none => c.environment := by
  induction l generalizing c with
  | nil => rfl
  | cons r t ih =>
      cases t with
      | nil => simp [foldCluster_environment]
      | cons r' t' =>
          rw [List.foldl_cons, ih, List.getLast?_cons_cons]
          cases hgl : (r' :: t').getLast? with
          | none => exact absurd (List.getLast?_eq_none_iff.mp hgl) (by simp)
          | some rr => rfl

/-- The contributing sub-stream of a cluster identifier (no record is
skipped by the cluster aggregation loop). -/
def clusterGroup (data : List NamespaceRecord) (k : String) : List NamespaceRecord :=
  groupOf clusterKey (fun _ => false) data k

/-- C10 (implicit claim): the cluster aggregator's `foundation` and
`environment` are last-writer-wins — the finalized record, whenever it
exists, carries the values of the last contributing record, with no
agreement check against earlier records. -/
theorem C10_cluster_last_writer_wins (data : List NamespaceRecord) (k : String)
    (c : Cluster) (h : lookupKey k (aggregate_by_cluster data) = some c) :
    ∃ r, (clusterGroup data k).getLast? = some r ∧
      c.foundation = some (r.foundation.getD "unknown") ∧
      c.environment = some (r.environment.getD "unknown") := by
  unfold aggregate_by_cluster at h
  rw [lookupKey_map_snd, lookupKey_processFold] at h
  rw [show lookupKey k ([] : List (String × Cluster)) = none from rfl] at h
  by_cases hg : (clusterGroup data k).isEmpty
  · rw [show groupOf clusterKey (fun _ => false) data k = clusterGroup data k from rfl,
      hg] at h
    simp at h
  · rw [show groupOf clusterKey (fun _ => false) data k = clusterGroup data k from rfl] at h
    rw [Bool.not_eq_true] at hg
    rw [hg] at h
    have h2 : finalizeCluster ((clusterGroup data k).foldl foldCluster initCluster) = c := by
      simpa using h
    have hne : clusterGroup data k ≠ [] := by
      intro hcontra
      rw [hcontra] at hg
      exact absurd hg (by decide)
    cases hgl : (clusterGroup data k).getLast? with
    | none => exact absurd (List.getLast?_eq_none_iff.mp hgl) hne
    | some r =>
        refine ⟨r, rfl, ?_, ?_⟩
        · rw [← h2]
          show ((clusterGroup data k).foldl foldCluster initCluster).foundation = _
          rw [foldl_cluster_foundation, hgl]
        · rw [← h2]
          show ((clusterGroup data k).foldl foldCluster initCluster).environment = _
          rw [foldl_cluster_environment, hgl]

/-- Two records for the same cluster whose foundation/environment disagree. -/
def recC10a : NamespaceRecord :=
  { nsName := "ns-a", cluster := some "c1", foundation := some "dc01",
    environment := some "lab" }

/-- The later record; its values win. -/
def recC10b : NamespaceRecord :=
  { nsName := "ns-b", cluster := some "c1", foundation := some "dc02",
    environment := some "production" }

theorem C10_cluster_last_writer_wins_witness :
    ∃ c, lookupKey "c1" (aggregate_by_cluster [recC10a, recC10b]) = some c ∧
      ∃ r, (clusterGroup [recC10a, recC10b] "c1").getLast? = some r ∧
        c.foundation = some (r.foundation.getD "unknown") ∧
        c.environment = some (r.environment.getD "unknown") := by
  have h : lookupKey "c1" (aggregate_by_cluster [recC10a, recC10b])
      = some (finalizeCluster (foldCluster (foldCluster initCluster recC10a) recC10b)) := by
    decide
  exact ⟨_, h, C10_cluster_last_writer_wins [recC10a, recC10b] "c1" _ h⟩

lemma mem_insertSet (l : List String) (y x : String) :
    x ∈ insertSet l y ↔ x ∈ l ∨ x = y := by
  unfold insertSet
  split_ifs with h
  · constructor
    · exact Or.inl
    · rintro (hx | rfl)
      · exact hx
      · exact h
  · simp

lemma insertSet_nodup (l : List String) (y : String) (h : l.Nodup) :
    (insertSet l y).Nodup := by
  unfold insertSet
  split_ifs with hy
  · exact h
  · simp [List.nodup_append, h, hy]

/-- The applications set is only touched by non-system records whose raw
explicit `app_id` differs from the sentinel. -/
lemma foldCluster_applications (c : Cluster) (r : NamespaceRecord) :
    (foldCluster c r).applications =
      if r.is_system then c.applications
      else if r.app_id.getD "unknown" ≠ "unknown" then
        insertSet c.applications (r.app_id.getD "unknown")
      else c.applications := by
  simp only [foldCluster]
  split_ifs <;> rfl

lemma mem_foldl_cluster_applications (l : List NamespaceRecord) (c : Cluster) (x : String) :
    x ∈ (l.foldl foldCluster c).applications ↔
      x ∈ c.applications ∨
        ∃ r ∈ l, r.is_system = false ∧ r.app_id.getD "unknown" = x ∧ x ≠ "unknown" := by
  induction l generalizing c with
  | nil => simp
  | cons r t ih =>
      rw [List.foldl_cons, ih, foldCluster_applications, List.exists_mem_cons_iff]
      by_cases hs : r.is_system
      · simp only [hs, if_true]
        have hr : ¬(r.is_system = false ∧ r.app_id.getD "unknown" = x ∧ x ≠ "unknown") := by
          rintro ⟨hf, -, -⟩
          rw [hs] at hf
          exact absurd hf (by decide)
        tauto
      · have hsf : r.is_system = false := by
          rwa [Bool.not_eq_true] at hs
        simp only [hsf, Bool.false_eq_true, if_false]
        by_cases ha : r.app_id.getD "unknown" = "unknown"
        · rw [if_neg (by simpa using ha)]
          have hr : ¬(r.is_system = false ∧ r.app_id.getD "unknown" = x ∧ x ≠ "unknown") := by
            rintro ⟨-, h1, h2⟩
            rw [ha] at h1
            exact h2 h1.symm
          tauto
        · rw [if_pos ha, mem_insertSet]
          have hiff : x = r.app_id.getD "unknown" ↔
              (r.is_system = false ∧ r.app_id.getD "unknown" = x ∧ x ≠ "unknown") := by
            constructor
            · rintro rfl
              exact ⟨hsf, rfl, ha⟩
            · rintro ⟨-, h1, -⟩
              exact h1.symm
          rw [hiff]
          tauto

lemma foldl_cluster_applications_nodup (l : List NamespaceRecord) (c : Cluster)
    (h : c.applications.Nodup) : ((l.foldl foldCluster c).applications).Nodup := by
  induction l generalizing c with
  | nil => exact h
  | cons r t ih =>
      rw [List.foldl_cons]
      apply ih
      rw [foldCluster_applications]
      split_ifs
      · exact h
      · exact insertSet_nodup _ _ h
      · exact h

/-- A non-system record with no explicit `app_id` whose namespace name is
derivable (`acme-app-12345` resolves to `acme-app`). -/
def recC7 : NamespaceRecord := { nsName := "acme-app-12345", cluster := some "c1" }

/-- C7 counterexample: the record's resolved identifier is `"acme-app"` (not
the sentinel), yet the cluster aggregator leaves the applications set empty
and counts zero applications — it never consults the derived identifier. -/
theorem C7_resolved_id_counterexample :
    resolveAppId recC7 = "acme-app" ∧
    recC7.is_system = false ∧
    (lookupKey "c1" (aggregate_by_cluster [recC7])).map (fun c => c.applications)
      = some [] ∧
    (lookupKey "c1" (aggregate_by_cluster [recC7])).map (fun c => c.application_count)
      = some 0 := by
  decide

/-- C7 amended: the cluster aggregator adds the record's raw explicit
`app_id` (defaulted to `"unknown"`, with no derivation from the namespace
name) for non-system records when it differs from the sentinel, and the
finalized `application_count` is the cardinality of that duplicate-free
set. -/
theorem C7_raw_app_id_amended (data : List NamespaceRecord) (k : String) (c : Cluster)
    (h : lookupKey k (aggregate_by_cluster data) = some c) :
    (∀ x, x ∈ c.applications ↔
        ∃ r ∈ clusterGroup data k,
          r.is_system = false ∧ r.app_id.getD "unknown" = x ∧ x ≠ "unknown") ∧
    c.applications.Nodup ∧
    c.application_count = (c.applications.length : Int) := by
  unfold aggregate_by_cluster at h
  rw [lookupKey_map_snd, lookupKey_processFold] at h
  rw [show lookupKey k ([] : List (String × Cluster)) = none from rfl] at h
  rw [show groupOf clusterKey (fun _ => false) data k = clusterGroup data k from rfl] at h
  by_cases hg : (clusterGroup data k).isEmpty
  · rw [hg] at h
    simp at h
  · rw [Bool.not_eq_true] at hg
    rw [hg] at h
    have h2 : finalizeCluster ((clusterGroup data k).foldl foldCluster initCluster) = c := by
      simpa using h
    refine ⟨?_, ?_, ?_⟩
    · intro x
      rw [← h2]
      show x ∈ ((clusterGroup data k).foldl foldCluster initCluster).applications ↔ _
      rw [mem_foldl_cluster_applications]
      simp [initCluster]
    · rw [← h2]
      exact foldl_cluster_applications_nodup _ _ (by simp [initCluster])
    · rw [← h2]
      rfl

/-- A record with an explicit application identifier. -/
def recC7b : NamespaceRecord :=
  { nsName := "ns1", cluster := some "c2", app_id := some "APP-1" }

theorem C7_raw_app_id_amended_witness :
    ∃ c, lookupKey "c2" (aggregate_by_cluster [recC7b]) = some c ∧
      ((∀ x, x ∈ c.applications ↔
          ∃ r ∈ clusterGroup [recC7b] "c2",
            r.is_system = false ∧ r.app_id.getD "unknown" = x ∧ x ≠ "unknown") ∧
       c.applications.Nodup ∧
       c.application_count = (c.applications.length : Int)) := by
  have h : lookupKey "c2" (aggregate_by_cluster [recC7b])
      = some (finalizeCluster (foldCluster initCluster recC7b)) := by decide
  exact ⟨_, h, C7_raw_app_id_amended [recC7b] "c2" _ h⟩

lemma mem_foldl_proj {R α : Type} (step : α → R → α) (proj : α → List String)
    (val : R → String) (hstep : ∀ a r, proj (step a r) = insertSet (proj a) (val r))
    (l : List R) (a : α) (x : String) :
    x ∈ proj (l.foldl step a) ↔ x ∈ proj a ∨ ∃ r ∈ l, val r = x := by
  induction l generalizing a with
  | nil => simp
  | cons r t ih =>
      rw [List.foldl_cons, ih, hstep, mem_insertSet, List.exists_mem_cons_iff]
      rw [show (x = val r) ↔ (val r = x) from eq_comm]
      tauto

lemma nodup_foldl_proj {R α : Type} (step : α → R → α) (proj : α → List String)
    (val : R → String) (hstep : ∀ a r, proj (step a r) = insertSet (proj a) (val r))
    (l : List R) (a : α) (h : (proj a).Nodup) : (proj (l.foldl step a)).Nodup := by
  induction l generalizing a with
  | nil => exact h
  | cons r t ih =>
      rw [List.foldl_cons]
      exact ih _ (by rw [hstep]; exact insertSet_nodup _ _ h)

lemma foldRecord_foundations (a : App) (r : NamespaceRecord) :
    (foldRecord a r).foundations = insertSet a.foundations (r.foundation.getD "unknown") := rfl

lemma foldRecord_environments (a : App) (r : NamespaceRecord) :
    (foldRecord a r).environments = insertSet a.environments (r.environment.getD "unknown") := rfl

lemma foldRecord_clusters (a : App) (r : NamespaceRecord) :
    (foldRecord a r).clusters = insertSet a.clusters (clusterKey r) := rfl

lemma finalizeApp_foundations (ds : String → Option Int) (a : App) :
    (finalizeApp ds a).foundations = a.foundations := by
  unfold finalizeApp
  cases h : a.last_activity with
  | none => rfl
  | some la =>
      by_cases h2 : la = ""
      · simp [h2]
      · cases h3 : ds la <;> simp [h2, h3]

lemma finalizeApp_environments (ds : String → Option Int) (a : App) :
    (finalizeApp ds a).environments = a.environments := by
  unfold finalizeApp
  cases h : a.last_activity with
  | none => rfl
  | some la =>
      by_cases h2 : la = ""
      · simp [h2]
      · cases h3 : ds la <;> simp [h2, h3]

lemma finalizeApp_clusters (ds : String → Option Int) (a : App) :
    (finalizeApp ds a).clusters = a.clusters := by
  unfold finalizeApp
  cases h : a.last_activity with
  | none => rfl
  | some la =>
      by_cases h2 : la = ""
      · simp [h2]
      · cases h3 : ds la <;> simp [h2, h3]

/-- First contributing record: foundation `dc02`. -/
def recC9a : NamespaceRecord :=
  { nsName := "pay-ns1", app_id := some "pay-app", foundation := some "dc02",
    labels := some [("team", "pay")] }

/-- Second contributing record for the same application: foundation `dc01`. -/
def recC9b : NamespaceRecord :=
  { nsName := "pay-ns2", app_id := some "pay-app", foundation := some "dc01",
    labels := some [("team", "pay")] }

/-- Code-point lexicographic strict order on character lists, the order
Python string comparison uses. -/
def lexLt : List Char → List Char → Bool
  | [], [] => false
  | [], _ :: _ => true
  | _ :: _, [] => false
  | a :: as, b :: bs =>
      if a.toNat < b.toNat then true
      else if b.toNat < a.toNat then false
      else lexLt as bs

/-- Code-point lexicographic `≤` on strings. -/
def strLexLe (a b : String) : Bool := !(lexLt b.data a.data)

/-- C9 counterexample: finalization emits the foundations in the backing
set's iteration order — `["dc02", "dc01"]` for insertion order
`dc02, dc01` — and since `"dc01"` precedes `"dc02"` lexically, this sequence
is not lexically sorted: no sort is applied at finalization. -/
theorem C9_sorted_serialization_counterexample :
    (lookupKey "pay-app"
        (aggregate_by_application (fun _ => none) [recC9a, recC9b])).map
        (fun a => a.foundations) = some ["dc02", "dc01"] ∧
    ¬ List.Sorted (fun a b : String => strLexLe a b = true) ["dc02", "dc01"] := by
  constructor
  · decide
  · intro h
    rw [List.sorted_cons] at h
    have hle : strLexLe "dc02" "dc01" = true := h.1 "dc01" (by simp)
    exact absurd hle (by decide)

/-- C9 amended: at finalization each set-valued attribute is serialized as a
duplicate-free sequence containing exactly the accumulated values (in the
backing set's iteration order — first-insertion order in this model); no
lexical sorting is applied. -/
theorem C9_serialization_amended (ds : String → Option Int) (data : List NamespaceRecord)
    (k : String) (app : App)
    (h : lookupKey k (aggregate_by_application ds data) = some app) :
    (app.foundations.Nodup ∧
      ∀ x, x ∈ app.foundations ↔ ∃ r ∈ appGroup data k, r.foundation.getD "unknown" = x) ∧
    (app.environments.Nodup ∧
      ∀ x, x ∈ app.environments ↔ ∃ r ∈ appGroup data k, r.environment.getD "unknown" = x) ∧
    (app.clusters.Nodup ∧
      ∀ x, x ∈ app.clusters ↔ ∃ r ∈ appGroup data k, clusterKey r = x) := by
  unfold aggregate_by_application at h
  rw [lookupKey_map_snd, lookupKey_processFold] at h
  rw [show lookupKey k ([] : List (String × App)) = none from rfl] at h
  rw [show groupOf resolveAppId (fun r => r.is_system) data k = appGroup data k from rfl] at h
  by_cases hg : (appGroup data k).isEmpty
  · rw [hg] at h
    simp at h
  · rw [Bool.not_eq_true] at hg
    rw [hg] at h
    have h2 : finalizeApp ds ((appGroup data k).foldl foldRecord initApp) = app := by
      simpa using h
    refine ⟨⟨?_, ?_⟩, ⟨?_, ?_⟩, ⟨?_, ?_⟩⟩
    · rw [← h2, finalizeApp_foundations]
      exact nodup_foldl_proj foldRecord (fun a => a.foundations) _
        foldRecord_foundations _ _ (by simp [initApp])
    · intro x
      rw [← h2, finalizeApp_foundations,
        mem_foldl_proj foldRecord (fun a => a.foundations) _ foldRecord_foundations]
      simp [initApp]
    · rw [← h2, finalizeApp_environments]
      exact nodup_foldl_proj foldRecord (fun a => a.environments) _
        foldRecord_environments _ _ (by simp [initApp])
    · intro x
      rw [← h2, finalizeApp_environments,
        mem_foldl_proj foldRecord (fun a => a.environments) _ foldRecord_environments]
      simp [initApp]
    · rw [← h2, finalizeApp_clusters]
      exact nodup_foldl_proj foldRecord (fun a => a.clusters) _
        foldRecord_clusters _ _ (by simp [initApp])
    · intro x
      rw [← h2, finalizeApp_clusters,
        mem_foldl_proj foldRecord (fun a => a.clusters) _ foldRecord_clusters]
      simp [initApp]

theorem C9_serialization_amended_witness :
    ∃ app, lookupKey "pay-app"
        (aggregate_by_application (fun _ => none) [recC9a, recC9b]) = some app ∧
      ((app.foundations.Nodup ∧
          ∀ x, x ∈ app.foundations ↔
            ∃ r ∈ appGroup [recC9a, recC9b] "pay-app", r.foundation.getD "unknown" = x) ∧
       (app.environments.Nodup ∧
          ∀ x, x ∈ app.environments ↔
            ∃ r ∈ appGroup [recC9a, recC9b] "pay-app", r.environment.getD "unknown" = x) ∧
       (app.clusters.Nodup ∧
          ∀ x, x ∈ app.clusters ↔
            ∃ r ∈ appGroup [recC9a, recC9b] "pay-app", clusterKey r = x)) := by
  have h : lookupKey "pay-app" (aggregate_by_application (fun _ => none) [recC9a, recC9b])
      = some (finalizeApp (fun _ => none) (foldRecord (foldRecord initApp recC9a) recC9b)) := by
    decide
  exact ⟨_, h, C9_serialization_amended (fun _ => none) [recC9a, recC9b] "pay-app" _ h⟩

lemma splitHyphen_ne_nil (s : List Char) : splitHyphen s ≠ [] := by
  cases s with
  | nil => simp [splitHyphen]
  | cons c rest =>
      simp only [splitHyphen]
      split_ifs
      · simp
      · cases h : splitHyphen rest <;> simp

lemma splitHyphen_head (s : List Char) :
    (splitHyphen s).headD [] = s.takeWhile (fun c => decide (c ≠ '-')) := by
  induction s with
  | nil => rfl
  | cons c rest ih =>
      simp only [splitHyphen]
      by_cases hc : c = '-'
      · subst hc
        simp [List.takeWhile_cons]
      · rw [if_neg hc]
        cases h : splitHyphen rest with
        | nil => exact absurd h (splitHyphen_ne_nil rest)
        | cons hh tt =>
            rw [h] at ih
            simp only [List.headD_cons] at ih
            simp [List.takeWhile_cons, hc, ih]

lemma splitHyphen_length_gt_one (s : List Char) :
    (splitHyphen s).length > 1 ↔ '-' ∈ s := by
  induction s with
  | nil => simp [splitHyphen]
  | cons c rest ih =>
      simp only [splitHyphen]
      by_cases hc : c = '-'
      · subst hc
        rw [if_pos rfl]
        simp only [List.length_cons, List.mem_cons]
        constructor
        · intro _
          exact Or.inl trivial
        · intro _
          have hlen : (splitHyphen rest).length ≥ 1 := by
            cases h : splitHyphen rest with
            | nil => exact absurd h (splitHyphen_ne_nil rest)
            | cons a b => simp
          omega
      · rw [if_neg hc]
        cases h : splitHyphen rest with
        | nil => exact absurd h (splitHyphen_ne_nil rest)
        | cons hh tt =>
            simp only [List.length_cons, List.mem_cons]
            rw [h] at ih
            simp only [List.length_cons] at ih
            constructor
            · intro hgt
              exact Or.inr (ih.mp hgt)
            · rintro (hceq | hmem)
              · exact absurd hceq.symm hc
              · exact ih.mpr hmem

/-- C4: identity resolution returns an explicit non-sentinel identifier
verbatim; otherwise the ordered name heuristics apply with first match
winning — `acme-app-12345` derives `acme-app`, `app-12345` derives
`app-12345`, a hyphenated name matched by neither numeric pattern derives
the prefix before the first hyphen, and a hyphen-free name such as `single`
degrades to the `"unknown"` sentinel (the resolver is a total function, so
it never raises). -/
theorem C4_identity_resolution :
    (∀ (r : NamespaceRecord) (a : String),
        r.app_id = some a → a ≠ "unknown" → resolveAppId r = a) ∧
    extract_app_id_from_name "acme-app-12345" = "acme-app" ∧
    extract_app_id_from_name "app-12345" = "app-12345" ∧
    (∀ nsName : String, matchPatOne nsName.data = none → matchPatTwo nsName.data = none →
        '-' ∈ nsName.data →
        extract_app_id_from_name nsName
          = String.mk (nsName.data.takeWhile (fun c => decide (c ≠ '-')))) ∧
    extract_app_id_from_name "single" = "unknown" := by
  refine ⟨?_, by decide, by decide, ?_, by decide⟩
  · intro r a ha hne
    unfold resolveAppId
    rw [ha]
    simp only [Option.getD_some]
    rw [if_neg hne]
  · intro nsName h1 h2 hm
    unfold extract_app_id_from_name
    rw [h1, h2]
    simp only
    rw [if_pos ((splitHyphen_length_gt_one nsName.data).mpr hm), splitHyphen_head]

theorem C4_identity_resolution_witness :
    resolveAppId { nsName := "payroll", app_id := some "APP-9" } = "APP-9" ∧
    extract_app_id_from_name "foo-bar"
      = String.mk ("foo-bar".data.takeWhile (fun c => decide (c ≠ '-'))) :=
  ⟨C4_identity_resolution.1 { nsName := "payroll", app_id := some "APP-9" } "APP-9"
      rfl (by decide),
   C4_identity_resolution.2.2.2.1 "foo-bar" (by decide) (by decide) (by decide)⟩

/-- The executive-summary record (`generate_summary`'s output, minus the
timestamp of the output envelope). -/
structure Summary where
  applications : Nat
  active_applications : Nat
  inactive_applications : Nat
  production_applications : Nat
  nonproduction_applications : Nat
  clusters : Nat
  total_pods : Int
  ready_for_migration : Nat
  needs_planning : Nat
  needs_metadata_analysis : Nat
  by_foundation : List (String × (Nat × Nat × Nat))
deriving DecidableEq, Repr

/-- `DataAggregator.generate_summary`: note that
`nonprod_apps = total_apps - prod_apps` is a complement, not a membership
count, and no lab category exists. -/
def generate_summary (app_data : List (String × App))
    (cluster_data : List (String × Cluster)) : Summary :=
  let total_apps := app_data.length
  let active_apps := app_data.countP (fun p => p.2.is_active)
  let prod_apps := app_data.countP (fun p => decide ("production" ∈ p.2.environments))
  { applications := total_apps
    active_applications := active_apps
    inactive_applications := total_apps - active_apps
    production_applications := prod_apps
    nonproduction_applications := total_apps - prod_apps
    clusters := cluster_data.length
    total_pods := (cluster_data.map (fun p => p.2.total_pods)).sum
    ready_for_migration := app_data.countP (fun p => decide (p.2.migration_readiness ≥ 70))
    needs_planning := active_apps
    needs_metadata_analysis := app_data.countP (fun p => decide (p.2.data_quality = "incomplete"))
    by_foundation := ["dc01", "dc02", "dc03", "dc04"].map (fun f =>
      let fapps := app_data.filter (fun p => decide (f ∈ p.2.foundations))
      (f, (fapps.length, fapps.countP (fun p => p.2.is_active),
           fapps.countP (fun p => !p.2.is_active)))) }

/-- A finalized application present in production and in a nonproduction
environment at once. -/
def appC6 : App := { initApp with environments := ["production", "nonprod"] }

/-- C6 counterexample: an application whose environment set touches both
production and a nonproduction environment increments only the production
count — `nonproduction_applications` is the complement `total − production`
(here `0`), not a membership count (which would be `1`), and the summary has
no lab category at all. -/
theorem C6_env_membership_counterexample :
    "production" ∈ appC6.environments ∧
    "nonprod" ∈ appC6.environments ∧
    (generate_summary [("a1", appC6)] []).applications = 1 ∧
    (generate_summary [("a1", appC6)] []).production_applications = 1 ∧
    (generate_summary [("a1", appC6)] []).nonproduction_applications = 0 := by
  decide

/-- C6 amended: the production count is membership-based on the environment
set, while the nonproduction count is its complement — it counts exactly the
applications whose environment set does not contain `"production"`, so an
application in both categories is counted once, for production only. -/
theorem C6_env_counts_amended (app_data : List (String × App))
    (cluster_data : List (String × Cluster)) :
    (generate_summary app_data cluster_data).production_applications
        = app_data.countP (fun p => decide ("production" ∈ p.2.environments)) ∧
    (generate_summary app_data cluster_data).nonproduction_applications
        = app_data.countP (fun p => decide ("production" ∉ p.2.environments)) := by
  constructor
  · rfl
  · show app_data.length
        - app_data.countP (fun p => decide ("production" ∈ p.2.environments)) = _
    have hpred : (fun p : String × App => decide ("production" ∉ p.2.environments))
        = (fun a : String × App =>
            decide (¬ decide ("production" ∈ a.2.environments) = true)) := by
      funext p
      simp
    rw [hpred,
      List.length_eq_countP_add_countP (fun p => decide ("production" ∈ p.2.environments))]
    omega

/-!
Embedding of `aggregate-cross-foundation.py`.  A CSV file is a list of rows,
each row an association list from column name to cell value.  `pd.read_csv`
infers a dtype per column, so a cell is either a string or an integer
(`Cell`); loading a file either finds no file (`missing`), fails to read or
parse it (`unreadable` — the `except` branch of the per-foundation `try`),
or yields its typed rows.  Crucially, `pd.concat` and
`DataFrame.sort_values` run *outside* the per-foundation `try` blocks: a
sort that compares a string cell with an integer cell raises `TypeError`
(as Python comparison does), which propagates through `run_consolidation`'s
re-raising `try` and aborts the whole run.  The sort is therefore modelled
as a fallible function.
-/

/-- A CSV cell after `read_csv` dtype inference: column text or a parsed
integer. -/
inductive Cell where
  | str (s : String)
  | int (n : Int)
deriving DecidableEq, Repr

/-- Outcome of looking for and reading one report kind of one foundation. -/
inductive LoadResult where
  | missing
  | unreadable
  | ok (rows : List (List (String × Cell)))
deriving DecidableEq, Repr

/-- The up-to-four discovered CSV files of one foundation. -/
structure FoundationFiles where
  applications : LoadResult := LoadResult.missing
  clusters : LoadResult := LoadResult.missing
  executive_summary : LoadResult := LoadResult.missing
  migration_priority : LoadResult := LoadResult.missing
deriving DecidableEq, Repr

/-- `available_reports > 0`: the foundation directory held at least one
recognizable CSV file (readable or not). -/
def hasAnyReport (f : FoundationFiles) : Bool :=
  decide (f.applications ≠ LoadResult.missing) ||
  decide (f.clusters ≠ LoadResult.missing) ||
  decide (f.executive_summary ≠ LoadResult.missing) ||
  decide (f.migration_priority ≠ LoadResult.missing)

/-- `discover_foundation_reports`: keep the foundations with at least one
report file. -/
def discover_foundation_reports (fd : List (String × FoundationFiles)) :
    List (String × FoundationFiles) :=
  fd.filter (fun p => hasAnyReport p.2)

/-- Python `str.strip()` on the character-list model. -/
def stripChars (s : List Char) : List Char :=
  ((s.dropWhile Char.isWhitespace).reverse.dropWhile Char.isWhitespace).reverse

/-- `col.strip().replace(' ', '_').lower()`. -/
def normalizeCol (c : String) : String :=
  String.mk (((stripChars c.data).map (fun ch => if ch = ' ' then '_' else ch)).map
    Char.toLower)

/-- The column names a row carries. -/
def rowKeys (row : List (String × Cell)) : List String := row.map Prod.fst

/-- `if 'Foundation' not in df.columns: df['Foundation'] = foundation`
(column presence modelled as some row carrying the key). -/
def add_foundation_column (foundation : String)
    (df : List (List (String × Cell))) : List (List (String × Cell)) :=
  if df.any (fun row => decide ("Foundation" ∈ rowKeys row)) then df
  else df.map (fun row => row ++ [("Foundation", Cell.str foundation)])

/-- `df.columns = [col.strip().replace(' ', '_').lower() for col in df.columns]`. -/
def normalize_columns (df : List (List (String × Cell))) :
    List (List (String × Cell)) :=
  df.map (fun row => row.map (fun kv => (normalizeCol kv.1, kv.2)))

/-- Cell access; a column missing from a row stands for pandas' filler value
(none of the verified claims depends on its choice). -/
def getColC (row : List (String × Cell)) (k : String) : Cell :=
  (lookupKey k row).getD (Cell.str "")

/-- Python comparison of two cells: well-typed comparisons succeed, a
string/integer comparison raises `TypeError` exactly as `str < int` does. -/
def cellLt : Cell → Cell → Except String Bool
  | Cell.int a, Cell.int b => Except.ok (decide (a < b))
  | Cell.str a, Cell.str b => Except.ok (lexLt a.data b.data)
  | _, _ => Except.error "TypeError: str and int are not orderable"

/-- `a ≤ b` as `not (b < a)`, with the same `TypeError` behaviour. -/
def cellLe (a b : Cell) : Except String Bool :=
  match cellLt b a with
  | Except.ok v => Except.ok (!v)
  | Except.error e => Except.error e

/-- One insertion step of the fallible row sort: the first raising
comparison aborts the sort. -/
def insertSortedM {α : Type} (le : α → α → Except String Bool) (x : α) :
    List α → Except String (List α)
  | [] => Except.ok [x]
  | y :: ys =>
      match le x y with
      | Except.error e => Except.error e
      | Except.ok true => Except.ok (x :: y :: ys)
      | Except.ok false =>
          match insertSortedM le x ys with
          | Except.error e => Except.error e
          | Except.ok zs => Except.ok (y :: zs)

/-- Insertion sort standing in for `DataFrame.sort_values`; it compares
cells with Python semantics and therefore raises on mixed-dtype keys. -/
def sortByM {α : Type} (le : α → α → Except String Bool) :
    List α → Except String (List α)
  | [] => Except.ok []
  | x :: xs =>
      match sortByM le xs with
      | Except.error e => Except.error e
      | Except.ok s => insertSortedM le x s

/-- `sort_values(['foundation', 'app_id'])` comparator. -/
def appsRowLeM (r1 r2 : List (String × Cell)) : Except String Bool :=
  if getColC r1 "foundation" = getColC r2 "foundation" then
    cellLe (getColC r1 "app_id") (getColC r2 "app_id")
  else cellLe (getColC r1 "foundation") (getColC r2 "foundation")

/-- `sort_values(['foundation', 'cluster'])` comparator. -/
def clustersRowLeM (r1 r2 : List (String × Cell)) : Except String Bool :=
  if getColC r1 "foundation" = getColC r2 "foundation" then
    cellLe (getColC r1 "cluster") (getColC r2 "cluster")
  else cellLe (getColC r1 "foundation") (getColC r2 "foundation")

/-- `sort_values(['migration_readiness', 'foundation'],
ascending=[False, True])` comparator. -/
def migRowLeM (r1 r2 : List (String × Cell)) : Except String Bool :=
  if getColC r1 "migration_readiness" = getColC r2 "migration_readiness" then
    cellLe (getColC r1 "foundation") (getColC r2 "foundation")
  else cellLe (getColC r2 "migration_readiness") (getColC r1 "migration_readiness")

/-- The per-foundation body of `load_and_combine_applications`: `None` when
the file is missing (warned and skipped) or unreadable (logged and skipped),
otherwise the rows with the foundation column injected and the column names
normalized. -/
def appTransform (p : String × FoundationFiles) :
    Option (List (List (String × Cell))) :=
  match p.2.applications with
  | LoadResult.ok df => some (normalize_columns (add_foundation_column p.1 df))
  | _ => none

/-- Likewise for cluster reports. -/
def clusterTransform (p : String × FoundationFiles) :
    Option (List (List (String × Cell))) :=
  match p.2.clusters with
  | LoadResult.ok df => some (normalize_columns (add_foundation_column p.1 df))
  | _ => none

/-- Likewise for migration-priority reports. -/
def migTransform (p : String × FoundationFiles) :
    Option (List (List (String × Cell))) :=
  match p.2.migration_priority with
  | LoadResult.ok df => some (normalize_columns (add_foundation_column p.1 df))
  | _ => none

/-- `load_and_combine_applications`: raises the no-data `ValueError` when no
foundation contributed usable application rows; the concat-then-sort of the
combined rows sits outside the per-foundation `try` and may itself raise. -/
def load_and_combine_applications (fd : List (String × FoundationFiles)) :
    Except String (List (List (String × Cell))) :=
  let loaded := fd.filterMap appTransform
  if loaded.isEmpty then
    Except.error "No application data could be loaded from any foundation"
  else
    let combined := loaded.flatten
    if combined.any (fun row => decide ("foundation" ∈ rowKeys row)) &&
        combined.any (fun row => decide ("app_id" ∈ rowKeys row)) then
      sortByM appsRowLeM combined
    else Except.ok combined

/-- `load_and_combine_clusters`: an empty kind is a warning plus an empty
dataset, never an error; only its sort step can raise. -/
def load_and_combine_clusters (fd : List (String × FoundationFiles)) :
    Except String (List (List (String × Cell))) :=
  let loaded := fd.filterMap clusterTransform
  if loaded.isEmpty then Except.ok []
  else
    let combined := loaded.flatten
    if combined.any (fun row => decide ("foundation" ∈ rowKeys row)) &&
        combined.any (fun row => decide ("cluster" ∈ rowKeys row)) then
      sortByM clustersRowLeM combined
    else Except.ok combined

/-- `load_and_combine_migration_priority`: same skip-and-continue shape. -/
def load_and_combine_migration_priority (fd : List (String × FoundationFiles)) :
    Except String (List (List (String × Cell))) :=
  let loaded := fd.filterMap migTransform
  if loaded.isEmpty then Except.ok []
  else
    let combined := loaded.flatten
    if combined.any (fun row => decide ("migration_readiness" ∈ rowKeys row)) then
      sortByM migRowLeM combined
    else Except.ok combined

/-- The foundations `load_and_combine_applications` records statistics for:
exactly those whose applications file loaded. -/
def foundation_stats_of (fd : List (String × FoundationFiles)) : List String :=
  fd.filterMap (fun p =>
    match p.2.applications with
    | LoadResult.ok _ => some p.1
    | _ => none)

/-- The integer a summary cell carries. -/
def cellToInt (c : Cell) : Int :=
  match c with
  | Cell.int n => n
  | Cell.str _ => 0

/-- `generate_cross_foundation_summary`, modelled at row-skeleton
granularity: one row per foundation that supplied application data with its
recomputed totals, plus the synthetic `TOTAL` row summing the numeric
columns; the claims under verification do not inspect the remaining numeric
columns. -/
def generate_cross_foundation_summary (stats : List String)
    (apps clusters : List (List (String × Cell))) :
    List (List (String × Cell)) :=
  let rows := stats.map (fun f =>
    let fapps := apps.filter (fun row => decide (getColC row "foundation" = Cell.str f))
    let fclusters :=
      clusters.filter (fun row => decide (getColC row "foundation" = Cell.str f))
    [("Foundation", Cell.str f),
     ("Total_Applications", Cell.int (fapps.length : Int)),
     ("Total_Clusters", Cell.int (fclusters.length : Int))])
  if rows.isEmpty then rows
  else
    rows ++ [[("Foundation", Cell.str "TOTAL"),
      ("Total_Applications",
        Cell.int ((rows.map (fun row => cellToInt (getColC row "Total_Applications"))).sum)),
      ("Total_Clusters",
        Cell.int ((rows.map (fun row => cellToInt (getColC row "Total_Clusters"))).sum))]]

/-- The four consolidated datasets `run_consolidation` saves. -/
structure ConsolidatedReports where
  applications : List (List (String × Cell))
  clusters : List (List (String × Cell))
  migration_priority : List (List (String × Cell))
  executive_summary : List (List (String × Cell))
deriving DecidableEq, Repr

/-- `CrossFoundationAggregator.run_consolidation`: its `try` logs and
re-raises, so any exception out of the loaders — the no-data `ValueError` or
a `TypeError` out of a cross-foundation sort — is fatal. -/
def run_consolidation (fd : List (String × FoundationFiles)) :
    Except String ConsolidatedReports :=
  let found := discover_foundation_reports fd
  if found.isEmpty then Except.error "No foundation reports found to consolidate"
  else
    match load_and_combine_applications found with
    | Except.error e => Except.error e
    | Except.ok apps =>
        match load_and_combine_clusters found with
        | Except.error e => Except.error e
        | Except.ok clusters =>
            match load_and_combine_migration_priority found with
            | Except.error e => Except.error e
            | Except.ok migration =>
                let summary :=
                  generate_cross_foundation_summary (foundation_stats_of found)
                    apps clusters
                Except.ok ⟨apps, clusters, migration, summary⟩

/-- Whether an `Except` carries a success value. -/
def exceptIsOk {ε α : Type} : Except ε α → Bool
  | Except.ok _ => true
  | Except.error _ => false

/-- The foundation produced usable application data. -/
def usableApps (p : String × FoundationFiles) : Bool :=
  match p.2.applications with
  | LoadResult.ok _ => true
  | _ => false

/-- The foundation produced usable cluster data. -/
def usableClusters (p : String × FoundationFiles) : Bool :=
  match p.2.clusters with
  | LoadResult.ok _ => true
  | _ => false

/-- The foundation produced usable migration-priority data. -/
def usableMigration (p : String × FoundationFiles) : Bool :=
  match p.2.migration_priority with
  | LoadResult.ok _ => true
  | _ => false

lemma usableApps_hasAny (p : String × FoundationFiles) (h : usableApps p = true) :
    hasAnyReport p.2 = true := by
  unfold usableApps at h
  unfold hasAnyReport
  cases ha : p.2.applications with
  | ok rows => simp [ha]
  | missing => rw [ha] at h; exact absurd h (by decide)
  | unreadable => rw [ha] at h; exact absurd h (by decide)

lemma not_usable_appTransform (p : String × FoundationFiles)
    (h : usableApps p = false) : appTransform p = none := by
  unfold usableApps at h
  unfold appTransform
  cases ha : p.2.applications with
  | ok rows => rw [ha] at h; exact absurd h (by simp)
  | missing => rfl
  | unreadable => rfl

lemma load_apps_error_of_all_none (fd : List (String × FoundationFiles))
    (h : ∀ p ∈ fd, appTransform p = none) :
    load_and_combine_applications fd
      = Except.error "No application data could be loaded from any foundation" := by
  unfold load_and_combine_applications
  rw [if_pos (by rw [List.isEmpty_eq_true, List.filterMap_eq_nil_iff]; exact h)]

lemma load_apps_ok_usable (fd : List (String × FoundationFiles))
    (h : exceptIsOk (load_and_combine_applications fd) = true) :
    ∃ p ∈ fd, usableApps p = true := by
  unfold load_and_combine_applications at h
  by_cases hemp : (fd.filterMap appTransform).isEmpty
  · rw [if_pos hemp] at h
    exact absurd h (by decide)
  · have h2 : ¬ (∀ a ∈ fd, appTransform a = none) := by
      intro hall
      exact hemp (by rw [List.isEmpty_eq_true, List.filterMap_eq_nil_iff]; exact hall)
    push_neg at h2
    obtain ⟨p, hp, hne⟩ := h2
    refine ⟨p, hp, ?_⟩
    unfold appTransform at hne
    unfold usableApps
    cases ha : p.2.applications with
    | ok rows => rfl
    | missing => rw [ha] at hne; exact absurd rfl hne
    | unreadable => rw [ha] at hne; exact absurd rfl hne

lemma exists_usable_discover (fd : List (String × FoundationFiles)) :
    (∃ p ∈ discover_foundation_reports fd, usableApps p = true) ↔
      ∃ p ∈ fd, usableApps p = true := by
  unfold discover_foundation_reports
  constructor
  · rintro ⟨p, hp, hu⟩
    exact ⟨p, (List.mem_filter.mp hp).1, hu⟩
  · rintro ⟨p, hp, hu⟩
    exact ⟨p, List.mem_filter.mpr ⟨hp, usableApps_hasAny p hu⟩, hu⟩

lemma filterMap_congr_of_proj {α β γ : Type} (f : α → Option γ) (g : α → β)
    (hfg : ∀ p q, g p = g q → f p = f q) :
    ∀ (l l' : List α), l.map g = l'.map g → l.filterMap f = l'.filterMap f
  | [], [], _ => rfl
  | [], _ :: _, h => by simp at h
  | _ :: _, [], h => by simp at h
  | a :: l, b :: l', h => by
      simp only [List.map_cons, List.cons.injEq] at h
      have hfab := hfg a b h.1
      have ih := filterMap_congr_of_proj f g hfg l l' h.2
      simp only [List.filterMap_cons, hfab, ih]

lemma appTransform_congr (p q : String × FoundationFiles)
    (h : (p.1, p.2.applications) = (q.1, q.2.applications)) :
    appTransform p = appTransform q := by
  unfold appTransform
  simp only [Prod.mk.injEq] at h
  rw [h.2, h.1]

lemma clusterTransform_congr (p q : String × FoundationFiles)
    (h : (p.1, p.2.clusters) = (q.1, q.2.clusters)) :
    clusterTransform p = clusterTransform q := by
  unfold clusterTransform
  simp only [Prod.mk.injEq] at h
  rw [h.2, h.1]

lemma migTransform_congr (p q : String × FoundationFiles)
    (h : (p.1, p.2.migration_priority) = (q.1, q.2.migration_priority)) :
    migTransform p = migTransform q := by
  unfold migTransform
  simp only [Prod.mk.injEq] at h
  rw [h.2, h.1]

/-- Two foundations whose applications both load, but whose `app_id` columns
inferred different dtypes (one numeric, one textual) under the same
`Foundation` value: the cross-foundation sort must compare them. -/
def fdC8bad : List (String × FoundationFiles) :=
  [("f1", { applications :=
      LoadResult.ok [[("Foundation", Cell.str "dc01"), ("app_id", Cell.int 12345)]] }),
   ("f2", { applications :=
      LoadResult.ok [[("Foundation", Cell.str "dc01"), ("app_id", Cell.str "APP-7")]] })]

/-- C8 counterexample: both foundations produced usable application data,
yet consolidation fails fatally — the combined `sort_values` compares an
integer `app_id` cell with a string one and raises `TypeError` outside every
per-foundation `try`, so "fails fatally iff zero foundations produced usable
application data" is false in the only-if direction. -/
theorem C8_fatal_despite_usable_apps :
    (∃ p ∈ fdC8bad, usableApps p = true) ∧
    exceptIsOk (run_consolidation fdC8bad) = false := by
  decide

/-- C8 amended: zero foundations with usable application data is always
fatal, and any successful consolidation had usable application data (the
cross-foundation concat/sort steps sit outside the per-foundation error
containment, so they can additionally abort a run with usable data); a kind
(clusters, migration-priority) unusable across all foundations yields an
empty dataset for that kind without contributing an error; and each kind's
dataset depends only on that kind's files, so a foundation skipped for one
kind still contributes its other kinds. -/
theorem C8_failure_containment (fd : List (String × FoundationFiles)) :
    ((¬ ∃ p ∈ fd, usableApps p = true) →
      exceptIsOk (run_consolidation fd) = false) ∧
    (exceptIsOk (run_consolidation fd) = true → ∃ p ∈ fd, usableApps p = true) ∧
    ((∀ p ∈ fd, usableClusters p = false) →
      load_and_combine_clusters (discover_foundation_reports fd) = Except.ok []) ∧
    ((∀ p ∈ fd, usableMigration p = false) →
      load_and_combine_migration_priority (discover_foundation_reports fd)
        = Except.ok []) ∧
    (∀ fd' : List (String × FoundationFiles),
      fd.map (fun p => (p.1, p.2.applications))
          = fd'.map (fun p => (p.1, p.2.applications)) →
      load_and_combine_applications fd = load_and_combine_applications fd') ∧
    (∀ fd' : List (String × FoundationFiles),
      fd.map (fun p => (p.1, p.2.migration_priority))
          = fd'.map (fun p => (p.1, p.2.migration_priority)) →
      load_and_combine_migration_priority fd
        = load_and_combine_migration_priority fd') ∧
    (∀ fd' : List (String × FoundationFiles),
      fd.map (fun p => (p.1, p.2.clusters)) = fd'.map (fun p => (p.1, p.2.clusters)) →
      load_and_combine_clusters fd = load_and_combine_clusters fd') := by
  refine ⟨?_, ?_, ?_, ?_, ?_, ?_, ?_⟩
  · intro hne
    unfold run_consolidation
    by_cases hf : (discover_foundation_reports fd).isEmpty
    · rw [if_pos hf]
      rfl
    · rw [if_neg hf]
      have hall : ∀ p ∈ discover_foundation_reports fd, appTransform p = none := by
        intro p hp
        have hpfd : p ∈ fd := (List.mem_filter.mp hp).1
        refine not_usable_appTransform p ?_
        cases hu : usableApps p
        · rfl
        · exact absurd ⟨p, hpfd, hu⟩ hne
      rw [load_apps_error_of_all_none _ hall]
      rfl
  · intro hok
    unfold run_consolidation at hok
    by_cases hf : (discover_foundation_reports fd).isEmpty
    · rw [if_pos hf] at hok
      exact absurd hok (by decide)
    · rw [if_neg hf] at hok
      cases hl : load_and_combine_applications (discover_foundation_reports fd) with
      | error e =>
          rw [hl] at hok
          simp [exceptIsOk] at hok
      | ok apps =>
          have hok2 : exceptIsOk
              (load_and_combine_applications (discover_foundation_reports fd)) = true := by
            rw [hl]
            rfl
          exact (exists_usable_discover fd).mp (load_apps_ok_usable _ hok2)
  · intro hmiss
    have hnone : ∀ p ∈ discover_foundation_reports fd, clusterTransform p = none := by
      intro p hp
      have hpfd : p ∈ fd := (List.mem_filter.mp hp).1
      have hu := hmiss p hpfd
      unfold usableClusters at hu
      unfold clusterTransform
      cases hc : p.2.clusters with
      | ok rows => rw [hc] at hu; simp at hu
      | missing => rfl
      | unreadable => rfl
    have hnil : (discover_foundation_reports fd).filterMap clusterTransform = [] :=
      List.filterMap_eq_nil_iff.mpr hnone
    simp [load_and_combine_clusters, hnil]
  · intro hmiss
    have hnone : ∀ p ∈ discover_foundation_reports fd, migTransform p = none := by
      intro p hp
      have hpfd : p ∈ fd := (List.mem_filter.mp hp).1
      have hu := hmiss p hpfd
      unfold usableMigration at hu
      unfold migTransform
      cases hc : p.2.migration_priority with
      | ok rows => rw [hc] at hu; simp at hu
      | missing => rfl
      | unreadable => rfl
    have hnil : (discover_foundation_reports fd).filterMap migTransform = [] :=
      List.filterMap_eq_nil_iff.mpr hnone
    simp [load_and_combine_migration_priority, hnil]
  · intro fd' h
    have hfm : fd.filterMap appTransform = fd'.filterMap appTransform :=
      filterMap_congr_of_proj appTransform (fun p => (p.1, p.2.applications))
        appTransform_congr fd fd' h
    unfold load_and_combine_applications
    rw [hfm]
  · intro fd' h
    have hfm : fd.filterMap migTransform = fd'.filterMap migTransform :=
      filterMap_congr_of_proj migTransform (fun p => (p.1, p.2.migration_priority))
        migTransform_congr fd fd' h
    unfold load_and_combine_migration_priority
    rw [hfm]
  · intro fd' h
    have hfm : fd.filterMap clusterTransform = fd'.filterMap clusterTransform :=
      filterMap_congr_of_proj clusterTransform (fun p => (p.1, p.2.clusters))
        clusterTransform_congr fd fd' h
    unfold load_and_combine_clusters
    rw [hfm]

/-- One foundation with only an applications report. -/
def fdC8 : List (String × FoundationFiles) :=
  [("dc01", { applications := LoadResult.ok [[("app_id", Cell.str "APP-1")]] })]

/-- The same foundation with its cluster file made unreadable. -/
def fdC8alt : List (String × FoundationFiles) :=
  [("dc01", { applications := LoadResult.ok [[("app_id", Cell.str "APP-1")]],
              clusters := LoadResult.unreadable })]

/-- The same foundation with its migration-priority file made unreadable. -/
def fdC8alt2 : List (String × FoundationFiles) :=
  [("dc01", { applications := LoadResult.ok [[("app_id", Cell.str "APP-1")]],
              migration_priority := LoadResult.unreadable })]

/-- A foundation directory holding only a cluster report: no usable
application data anywhere. -/
def fdC8empty : List (String × FoundationFiles) :=
  [("dc03", { clusters := LoadResult.ok [] })]

theorem C8_failure_containment_witness :
    exceptIsOk (run_consolidation fdC8empty) = false ∧
    (∃ p ∈ fdC8, usableApps p = true) ∧
    load_and_combine_clusters (discover_foundation_reports fdC8) = Except.ok [] ∧
    load_and_combine_migration_priority (discover_foundation_reports fdC8)
      = Except.ok [] ∧
    load_and_combine_applications fdC8 = load_and_combine_applications fdC8alt ∧
    load_and_combine_migration_priority fdC8
      = load_and_combine_migration_priority fdC8alt ∧
    load_and_combine_clusters fdC8 = load_and_combine_clusters fdC8alt2 :=
  ⟨(C8_failure_containment fdC8empty).1 (by decide),
   (C8_failure_containment fdC8).2.1 (by decide),
   (C8_failure_containment fdC8).2.2.1 (by decide),
   (C8_failure_containment fdC8).2.2.2.1 (by decide),
   (C8_failure_containment fdC8).2.2.2.2.1 fdC8alt (by decide),
   (C8_failure_containment fdC8).2.2.2.2.2.1 fdC8alt (by decide),
   (C8_failure_containment fdC8).2.2.2.2.2.2 fdC8alt2 (by decide)⟩
